import Mathlib

/-!
Verification of the degree-credential pipeline: credential issuance,
hash-commitment, proof generation and proof verification.

The TypeScript sources are embedded shallowly.  Platform primitives that the
code merely calls (Web Crypto SHA-256 / ECDSA, `JSON.stringify`,
`Number.prototype.toString`, `btoa`) are abstracted into a `JsEnv` record of
pure functions; effectful calls (`Date.now()`, `generateKeyPair()`) become
explicit parameters threaded into each operation.  JavaScript truthiness is
modelled explicitly where the code relies on it (`diplomaData.gpa ? … : …`
treats a gpa of `0` as absent; `!credential.signature` is true for a missing
or empty string).
-/

namespace DegreeVerification

/-- `DiplomaData` from `types.ts`: the holder's private facts.  `gpa` is an
optional JS number, modelled as an optional rational. -/
structure DiplomaData where
  degree : String
  school : String
  graduationDate : String
  studentId : String
  gpa : Option ℚ
deriving DecidableEq

/-- `HashedDiplomaData` from `types.ts`: the commitment set, one hex digest
per field, with the gpa commitment optional. -/
structure HashedDiplomaData where
  degreeHash : String
  schoolHash : String
  dateHash : String
  studentIdHash : String
  gpaHash : Option String
deriving DecidableEq

/-- `Credential` from `types.ts`. -/
structure Credential where
  hashedData : HashedDiplomaData
  signature : String
  issuerPublicKey : String
  timestamp : ℕ
deriving DecidableEq

/-- A key pair as returned by `generateKeyPair` in `crypto.ts`. -/
structure KeyPair where
  privateKey : String
  publicKey : String
deriving DecidableEq

/-- `ProofRequest` from `types.ts`. -/
structure ProofRequest where
  credential : Credential
  privateInputs : DiplomaData
deriving DecidableEq

/-- `ProofResponse` from `types.ts`. -/
structure ProofResponse where
  proof : String
  publicInputs : List String
  verificationKey : String
deriving DecidableEq

/-- `VerificationRequest` from `types.ts`. -/
structure VerificationRequest where
  proof : String
  publicInputs : List String
  verificationKey : String
  issuerPublicKey : String
deriving DecidableEq

/-- The `{isValid, message}` record returned by `verifyZKProof` in
`api/verify.ts` (the endpoint adds `verifiedAt` on top of it). -/
structure VerificationOutcome where
  isValid : Bool
  message : String
deriving DecidableEq

/-- The platform primitives the TypeScript code delegates to.  `hash` is
`hashData` (SHA-256 hex, total for any string); `sign` is `signData`, which
throws on bad key material (modelled as `none`); `verify` is
`verifySignature`, which returns `false` rather than throwing;
`stringifyHashed` is `JSON.stringify` applied to a `HashedDiplomaData`
object; `numToString` is `Number.prototype.toString`; `btoa` and
`stringifyProofData` (JSON.stringify of the mock-proof payload object) only
feed the opaque proof string. -/
structure JsEnv where
  hash : String → String
  sign : String → String → Option String
  verify : String → String → String → Bool
  stringifyHashed : HashedDiplomaData → String
  numToString : ℚ → String
  btoa : String → String
  stringifyProofData : String → ℕ → DiplomaData → String

/-- JS truthiness of an optional string: `!x` holds when the field is absent
or the empty string. -/
def jsFalsyStr (o : Option String) : Bool :=
  match o with
  | none => true
  | some s => s == ""

/-- JS `String.prototype.startsWith`. -/
def jsStartsWith (s pre : String) : Bool :=
  pre.data.isPrefixOf s.data

/-- JS `String.prototype.endsWith`. -/
def jsEndsWith (s suf : String) : Bool :=
  suf.data.isSuffixOf s.data

/-- The optional gpa commitment computed by `issueCredential`
(`credentialIssuer.ts` line 18):
`diplomaData.gpa ? await hashData(diplomaData.gpa.toString()) : undefined`.
A gpa of `0` is falsy in JS, so it yields no commitment. -/
def gpaCommitment (env : JsEnv) (gpa : Option ℚ) : Option String :=
  match gpa with
  | none => none
  | some g => if g = 0 then none else some (env.hash (env.numToString g))

/-- The commitment set built by `issueCredential` (`credentialIssuer.ts`
lines 13–19): each diploma field hashed independently. -/
def issueHashedData (env : JsEnv) (d : DiplomaData) : HashedDiplomaData :=
  { degreeHash := env.hash d.degree
    schoolHash := env.hash d.school
    dateHash := env.hash d.graduationDate
    studentIdHash := env.hash d.studentId
    gpaHash := gpaCommitment env d.gpa }

/-- `issueCredential` from `credentialIssuer.ts`.  The fresh key pair the
code obtains from `generateKeyPair()` and the `Date.now()` timestamp are
explicit parameters.  Note the source stores `keyPair.publicKey` of that
*fresh* pair as `issuerPublicKey`, not a key derived from
`issuerPrivateKey`.  A signing failure is rethrown as
`'Failed to issue credential'`; no input validation is performed. -/
def issueCredential (env : JsEnv) (freshKeys : KeyPair) (now : ℕ)
    (diplomaData : DiplomaData) (issuerPrivateKey : String) :
    Except String Credential :=
  let hashedData := issueHashedData env diplomaData
  let dataToSign := env.stringifyHashed hashedData
  match env.sign dataToSign issuerPrivateKey with
  | none => .error "Failed to issue credential"
  | some signature =>
      .ok { hashedData := hashedData
            signature := signature
            issuerPublicKey := freshKeys.publicKey
            timestamp := now }

/-- `verifyCredential` from `credentialIssuer.ts`: re-encodes
`credential.hashedData` and checks the signature against the supplied
public key (any exception yields `false`, which the abstract `verify`
already guarantees). -/
def verifyCredential (env : JsEnv) (credential : Credential)
    (issuerPublicKey : String) : Bool :=
  env.verify (env.stringifyHashed credential.hashedData)
    credential.signature issuerPublicKey

/-- The loop body of `batchIssueCredentials` (`credentialIssuer.ts` lines
101–118), threading the per-call fresh key pair and timestamp via `supply`
indexed by call number: each entry is issued in order and the first
failure is rethrown immediately. -/
def batchIssueAux (env : JsEnv) (supply : ℕ → KeyPair × ℕ)
    (issuerPrivateKey : String) : ℕ → List DiplomaData →
    Except String (List Credential)
  | _, [] => .ok []
  | i, d :: rest =>
      match issueCredential env (supply i).1 (supply i).2 d issuerPrivateKey with
      | .error e => .error e
      | .ok c =>
          match batchIssueAux env supply issuerPrivateKey (i + 1) rest with
          | .error e => .error e
          | .ok cs => .ok (c :: cs)

/-- `batchIssueCredentials` from `credentialIssuer.ts`. -/
def batchIssueCredentials (env : JsEnv) (supply : ℕ → KeyPair × ℕ)
    (diplomaDataList : List DiplomaData) (issuerPrivateKey : String) :
    Except String (List Credential) :=
  batchIssueAux env supply issuerPrivateKey 0 diplomaDataList

/-- The JSON object tree obtained by parsing a serialized commitment set:
each of the five keys may be present (`some`) or absent (`none`).  Present
values carry their schema type; `JSON.stringify` omits `undefined` fields,
so an absent optional gpa commitment round-trips as an absent key. -/
structure RawHashedData where
  degreeHash : Option String
  schoolHash : Option String
  dateHash : Option String
  studentIdHash : Option String
  gpaHash : Option String
deriving DecidableEq, Inhabited

/-- The JSON object tree obtained by parsing a serialized credential
(`JSON.parse(fileContent) as Credential`): each top-level key may be
present or absent.  The TS `as Credential` cast does not check anything,
so an imported value is really such a raw tree. -/
structure RawCredential where
  hashedData : Option RawHashedData
  signature : Option String
  issuerPublicKey : Option String
  timestamp : Option ℕ
deriving DecidableEq

/-- `exportCredential` from `credentialIssuer.ts`:
`JSON.stringify(credential, null, 2)`.  Modelled at the JSON-tree level
(pretty-printing and re-parsing are the platform's inverse bijection on
these trees): every field of a `Credential` is present in the output. -/
def exportCredential (credential : Credential) : RawCredential :=
  { hashedData := some
      { degreeHash := some credential.hashedData.degreeHash
        schoolHash := some credential.hashedData.schoolHash
        dateHash := some credential.hashedData.dateHash
        studentIdHash := some credential.hashedData.studentIdHash
        gpaHash := credential.hashedData.gpaHash }
    signature := some credential.signature
    issuerPublicKey := some credential.issuerPublicKey
    timestamp := some credential.timestamp }

/-- Reading a raw JSON credential tree back at the `Credential` type:
defined exactly when every required field is present (this is the typing
the TS cast pretends to have). -/
def readRawCredential (r : RawCredential) : Option Credential :=
  match r.hashedData, r.signature, r.issuerPublicKey, r.timestamp with
  | some h, some signature, some issuerPublicKey, some timestamp =>
      match h.degreeHash, h.schoolHash, h.dateHash, h.studentIdHash with
      | some dg, some sc, some dt, some sid =>
          some { hashedData :=
                   { degreeHash := dg, schoolHash := sc, dateHash := dt
                     studentIdHash := sid, gpaHash := h.gpaHash }
                 signature := signature
                 issuerPublicKey := issuerPublicKey
                 timestamp := timestamp }
      | _, _, _, _ => none
  | _, _, _, _ => none

/-- `importCredential` from `credentialIssuer.ts`: parses the file content
and checks only the truthiness of `hashedData`, `signature` and
`issuerPublicKey` (`!credential.hashedData || !credential.signature ||
!credential.issuerPublicKey`); `timestamp` and the individual hash fields
are never examined.  Any failure is rethrown as
`'Failed to import credential: Invalid format'`.  An object (present
`hashedData`) is always truthy in JS. -/
def importCredential (parsed : RawCredential) : Except String RawCredential :=
  if parsed.hashedData.isNone || jsFalsyStr parsed.signature ||
      jsFalsyStr parsed.issuerPublicKey then
    .error "Failed to import credential: Invalid format"
  else
    .ok parsed

/-- `validateCredential` from `CredentialUploader.tsx`: presence (`in`)
checks for the four top-level fields and the four required hash fields,
then format checks on signature, public key and timestamp.  Errors carry
the thrown message. -/
def validateCredential (credential : RawCredential) : Except String Unit :=
  if credential.hashedData.isNone then
    .error "Missing required field: hashedData"
  else if credential.signature.isNone then
    .error "Missing required field: signature"
  else if credential.issuerPublicKey.isNone then
    .error "Missing required field: issuerPublicKey"
  else if credential.timestamp.isNone then
    .error "Missing required field: timestamp"
  else if ((credential.hashedData.getD default).degreeHash).isNone then
    .error "Missing required hashed field: degreeHash"
  else if ((credential.hashedData.getD default).schoolHash).isNone then
    .error "Missing required hashed field: schoolHash"
  else if ((credential.hashedData.getD default).dateHash).isNone then
    .error "Missing required hashed field: dateHash"
  else if ((credential.hashedData.getD default).studentIdHash).isNone then
    .error "Missing required hashed field: studentIdHash"
  else if jsFalsyStr credential.signature then
    .error "Invalid signature format"
  else if jsFalsyStr credential.issuerPublicKey then
    .error "Invalid issuer public key format"
  else if credential.timestamp.getD 0 = 0 then
    .error "Invalid timestamp"
  else
    .ok ()

/-- The commitment set recomputed by `generateProof`
(`proofService.ts` lines 14–20) from the holder's private inputs — the same
per-field hashing the issuer performs, duplicated at this second site. -/
def recomputeHashedInputs (env : JsEnv) (privateInputs : DiplomaData) :
    HashedDiplomaData :=
  { degreeHash := env.hash privateInputs.degree
    schoolHash := env.hash privateInputs.school
    dateHash := env.hash privateInputs.graduationDate
    studentIdHash := env.hash privateInputs.studentId
    gpaHash := gpaCommitment env privateInputs.gpa }

/-- `verifyHashedData` from `proofService.ts`: field-by-field `===`
comparison; for the optional gpa commitments, equal values or both falsy
(`!hashedInputs.gpaHash && !credentialData.gpaHash`). -/
def verifyHashedData (hashedInputs credentialData : HashedDiplomaData) : Bool :=
  hashedInputs.degreeHash == credentialData.degreeHash &&
  hashedInputs.schoolHash == credentialData.schoolHash &&
  hashedInputs.dateHash == credentialData.dateHash &&
  hashedInputs.studentIdHash == credentialData.studentIdHash &&
  (hashedInputs.gpaHash == credentialData.gpaHash ||
    (jsFalsyStr hashedInputs.gpaHash && jsFalsyStr credentialData.gpaHash))

/-- `generateMockProof` from `proofService.ts`: opaque payload from the
base64 of the JSON-encoded `{credential: signature, timestamp: Date.now(),
inputs: privateInputs}` object truncated to 64 characters; public inputs
are exactly the issuer key, the credential timestamp as text, and the
fixed tag. -/
def generateMockProof (env : JsEnv) (request : ProofRequest) (now : ℕ) :
    ProofResponse :=
  let proofHash :=
    (env.btoa (env.stringifyProofData request.credential.signature now
      request.privateInputs)).take 64
  { proof := "zkproof_" ++ proofHash
    publicInputs :=
      [request.credential.issuerPublicKey,
       toString request.credential.timestamp,
       "degree_verified"]
    verificationKey := "vk_" ++ request.credential.issuerPublicKey.take 16 }

/-- `generateProof` from `proofService.ts`: recompute the commitments from
the private inputs, compare with the credential's stored commitments via
`verifyHashedData`, and throw
`'Private inputs do not match the credential data'` on mismatch; on match
return the mock proof. -/
def generateProof (env : JsEnv) (request : ProofRequest) (now : ℕ) :
    Except String ProofResponse :=
  let hashedInputs := recomputeHashedInputs env request.privateInputs
  if verifyHashedData hashedInputs request.credential.hashedData then
    .ok (generateMockProof env request now)
  else
    .error "Private inputs do not match the credential data"

/-- `validateProofStructure` from `api/verify.ts`. -/
def validateProofStructure (request : VerificationRequest) : Bool :=
  if !jsStartsWith request.proof "zkproof_" then false
  else if !jsStartsWith request.verificationKey "vk_" then false
  else if request.proof.length < 10 || request.proof.length > 1000 then false
  else true

/-- `validateIssuerKey` from `api/verify.ts`.  `trustedIssuers` is the
result of `process.env.TRUSTED_ISSUERS?.split(',') || []`, passed as a
parameter: empty key is rejected; with a configured (non-empty) allow-list
membership decides; otherwise any key of length ≥ 32 passes. -/
def validateIssuerKey (trustedIssuers : List String)
    (issuerPublicKey : String) : Bool :=
  if issuerPublicKey.length == 0 then false
  else if trustedIssuers.length > 0 then trustedIssuers.contains issuerPublicKey
  else decide (32 ≤ issuerPublicKey.length)

/-- `validatePublicInputs` from `api/verify.ts`: non-empty list, every
entry a non-empty string. -/
def validatePublicInputs (publicInputs : List String) : Bool :=
  if publicInputs.length < 1 then false
  else publicInputs.all (fun input => !(input.length == 0))

/-- `performCryptographicVerification` from `api/verify.ts`: the simulated
backend check — hash proof‖key and the concatenated public inputs, rehash
the two digests, and accept when the combined digest ends in one of four
hex characters. -/
def performCryptographicVerification (env : JsEnv)
    (request : VerificationRequest) : Bool :=
  let proofHash := env.hash (request.proof ++ request.verificationKey)
  let inputsHash := env.hash (String.join request.publicInputs)
  let combinedHash := env.hash (proofHash ++ inputsHash)
  jsEndsWith combinedHash "0" || jsEndsWith combinedHash "5" ||
    jsEndsWith combinedHash "a" || jsEndsWith combinedHash "f"

/-- `verifyZKProof` from `api/verify.ts`: the four checks in order, each
failure with its own message, success only when all pass. -/
def verifyZKProof (env : JsEnv) (trustedIssuers : List String)
    (request : VerificationRequest) : VerificationOutcome :=
  let proofStructureValid := validateProofStructure request
  let issuerKeyValid := validateIssuerKey trustedIssuers request.issuerPublicKey
  let publicInputsValid := validatePublicInputs request.publicInputs
  if !proofStructureValid then
    { isValid := false, message := "Invalid proof structure" }
  else if !issuerKeyValid then
    { isValid := false, message := "Invalid or untrusted issuer" }
  else if !publicInputsValid then
    { isValid := false, message := "Invalid public inputs" }
  else if !performCryptographicVerification env request then
    { isValid := false, message := "Cryptographic proof verification failed" }
  else
    { isValid := true, message := "Proof verified successfully" }

/-- Result of the issuance endpoint's `issue-credential` action. -/
inductive ApiIssueResult where
  | badRequest (message : String)
  | issued (credential : Credential)
  | serverError (message : String)
deriving DecidableEq

/-- The `issue-credential` action of the issuance endpoint (`api` handler):
rejects with HTTP 400 `'Missing required diploma data fields'` when any of
the four required fields is falsy (empty), then calls `issueCredential`;
an exception becomes the 500 response.  The gpa is never examined. -/
def issueCredentialAction (env : JsEnv) (freshKeys : KeyPair) (now : ℕ)
    (diplomaData : DiplomaData) (issuerPrivateKey : String) : ApiIssueResult :=
  if diplomaData.degree == "" || diplomaData.school == "" ||
      diplomaData.graduationDate == "" || diplomaData.studentId == "" then
    .badRequest "Missing required diploma data fields"
  else
    match issueCredential env freshKeys now diplomaData issuerPrivateKey with
    | .ok credential => .issued credential
    | .error _ => .serverError "Failed to process credential request"

/-- `fields.join('|')` as performed by `hashMultipleFields` in
`crypto.ts` (JS `Array.prototype.join` with separator `'|'`). -/
def joinFields : List String → String
  | [] => ""
  | [s] => s
  | s :: s' :: rest => s ++ "|" ++ joinFields (s' :: rest)

/-- `hashMultipleFields` from `crypto.ts`: hash of the `'|'`-joined
fields. -/
def hashMultipleFields (env : JsEnv) (fields : List String) : String :=
  env.hash (joinFields fields)

/-- A concrete, fully computable instantiation of the platform primitives,
used to evaluate the embedded code on concrete inputs.  Hashing prefixes a
marker, the signature scheme is `sig = data ++ ":" ++ key` verified
against the public key, so a key pair matches exactly when the stored
public key equals the signing key. -/
def toyEnv : JsEnv :=
  { hash := fun s => "#" ++ s
    sign := fun data key => some (data ++ ":" ++ key)
    verify := fun data sig key => sig == data ++ ":" ++ key
    stringifyHashed := fun h =>
      h.degreeHash ++ "," ++ h.schoolHash ++ "," ++ h.dateHash ++ "," ++
        h.studentIdHash ++ "," ++ h.gpaHash.getD "_"
    numToString := fun q => toString q.num ++ "/" ++ toString q.den
    btoa := fun s => s
    stringifyProofData := fun sig now inputs =>
      sig ++ ";" ++ toString now ++ ";" ++ inputs.degree }

/-- The diploma data of the spec's concrete scenario A, with an integral
gpa so that concrete evaluation stays kernel-friendly. -/
def sampleDiploma : DiplomaData :=
  { degree := "B.Sc. CS"
    school := "MIT"
    graduationDate := "2023-05-15"
    studentId := "123456789"
    gpa := some 3 }

/-- A fresh key pair standing for the pair `generateKeyPair()` returns
inside `issueCredential`; distinct from the caller's key. -/
def sampleFreshKeys : KeyPair :=
  { privateKey := "freshSk", publicKey := "freshPk" }

/-- The credential `issueCredential` produces under `toyEnv` for
`sampleDiploma`, signing key `"issuerKey"`, fresh pair `sampleFreshKeys`
and timestamp 5: the recorded `issuerPublicKey` is the fresh `"freshPk"`,
not the caller's key. -/
def regeneratedKeyCredential : Credential :=
  { hashedData :=
      { degreeHash := "#B.Sc. CS", schoolHash := "#MIT",
        dateHash := "#2023-05-15", studentIdHash := "#123456789",
        gpaHash := some "#3/1" }
    signature := "#B.Sc. CS,#MIT,#2023-05-15,#123456789,#3/1:issuerKey"
    issuerPublicKey := "freshPk"
    timestamp := 5 }

/-- Diploma data violating the spec's validation rules: empty `degree`
and gpa outside [0,4]. -/
def invalidDiploma : DiplomaData :=
  { degree := ""
    school := "State U"
    graduationDate := "2020-01-01"
    studentId := "42"
    gpa := some 5 }

/-- A proof request whose credential committed to `sampleDiploma`
(including its gpa) but whose private inputs omit the gpa — the spec's
concrete scenario B. -/
def gpaOmittedRequest : ProofRequest :=
  { credential :=
      { hashedData := issueHashedData toyEnv sampleDiploma
        signature := "sig"
        issuerPublicKey := "PK"
        timestamp := 9 }
    privateInputs := { sampleDiploma with gpa := none } }

/-- A proof request whose private inputs recompute exactly the
credential's commitments. -/
def matchingRequest : ProofRequest :=
  { credential :=
      { hashedData := recomputeHashedInputs toyEnv sampleDiploma
        signature := "sig"
        issuerPublicKey := "PKPKPK"
        timestamp := 123 }
    privateInputs := sampleDiploma }

/-- A structurally valid verification request from an issuer key that is
not on the verifier's allow-list. -/
def untrustedRequest : VerificationRequest :=
  { proof := "zkproof_12345"
    publicInputs := ["a"]
    verificationKey := "vk_1"
    issuerPublicKey := "intruderKey" }

/-- A parsed credential object with `timestamp` and all four hash fields
missing, but the three fields `importCredential` actually checks
present. -/
def missingFieldsRaw : RawCredential :=
  { hashedData := some
      { degreeHash := none, schoolHash := none, dateHash := none,
        studentIdHash := none, gpaHash := none }
    signature := some "sig"
    issuerPublicKey := some "pk"
    timestamp := none }

/-- A concrete valid credential for exercising the export/import
round-trip. -/
def roundTripCredential : Credential :=
  { hashedData :=
      { degreeHash := "d1", schoolHash := "d2", dateHash := "d3",
        studentIdHash := "d4", gpaHash := none }
    signature := "sig"
    issuerPublicKey := "pk"
    timestamp := 77 }

/-- `fields.join('|')` at the character-list level, mirroring
`joinFields` for reasoning about the joined pre-image. -/
def joinData : List (List Char) → List Char
  | [] => []
  | [s] => s
  | s :: s' :: rest => s ++ '|' :: joinData (s' :: rest)

/-- `sampleDiploma` with a gpa of `0` — inside the spec's [0,4] range but
falsy in JS. -/
def zeroGpaDiploma : DiplomaData :=
  { sampleDiploma with gpa := some 0 }

/-- The credential issued for the single entry of a one-element batch
under `toyEnv` with supply `fun i => (sampleFreshKeys, i)`. -/
def batchCredential : Credential :=
  { hashedData :=
      { degreeHash := "#B.Sc. CS", schoolHash := "#MIT",
        dateHash := "#2023-05-15", studentIdHash := "#123456789",
        gpaHash := some "#3/1" }
    signature := "#B.Sc. CS,#MIT,#2023-05-15,#123456789,#3/1:issuerKey"
    issuerPublicKey := "freshPk"
    timestamp := 0 }

/-- The hash of `toyEnv` never returns the empty string (its output
always starts with the marker character). -/
theorem toyEnv_hash_ne_empty (s : String) : toyEnv.hash s ≠ "" := by
  intro h
  have h' : ("#" ++ s : String) = "" := h
  have hd := congrArg String.data h'
  rw [String.data_append] at hd
  simp at hd

/-- JS falsiness of an optional string that is not the present empty
string is exactly absence. -/
theorem jsFalsyStr_eq_isNone (o : Option String) (h : o ≠ some "") :
    jsFalsyStr o = o.isNone := by
  cases o with
  | none => rfl
  | some s =>
    simp [jsFalsyStr]
    intro hs
    exact h (by rw [hs])

/-- When neither gpa commitment is a present empty string,
`verifyHashedData` succeeds exactly on field-wise equality of the two
commitment sets. -/
theorem verifyHashedData_true_iff (a b : HashedDiplomaData)
    (ha : a.gpaHash ≠ some "") (hb : b.gpaHash ≠ some "") :
    verifyHashedData a b = true ↔
      (a.degreeHash = b.degreeHash ∧ a.schoolHash = b.schoolHash ∧
       a.dateHash = b.dateHash ∧ a.studentIdHash = b.studentIdHash ∧
       a.gpaHash = b.gpaHash) := by
  unfold verifyHashedData
  rw [jsFalsyStr_eq_isNone _ ha, jsFalsyStr_eq_isNone _ hb]
  constructor
  · intro h
    simp only [Bool.and_eq_true, Bool.or_eq_true, beq_iff_eq,
      Option.isNone_iff_eq_none] at h
    obtain ⟨⟨⟨⟨h1, h2⟩, h3⟩, h4⟩, h5⟩ := h
    refine ⟨h1, h2, h3, h4, ?_⟩
    rcases h5 with h5 | ⟨h5a, h5b⟩
    · exact h5
    · rw [h5a, h5b]
  · rintro ⟨h1, h2, h3, h4, h5⟩
    simp [h1, h2, h3, h4, h5]

/-- The spec's gpa comparison — both present and equal, or both absent —
is plain equality of optional commitments. -/
theorem gpaMatch_iff (a b : Option String) :
    ((∃ v, a = some v ∧ b = some v) ∨ (a = none ∧ b = none)) ↔ a = b := by
  constructor
  · rintro (⟨v, hv1, hv2⟩ | ⟨h1, h2⟩)
    · rw [hv1, hv2]
    · rw [h1, h2]
  · intro h
    cases a with
    | none => right; exact ⟨rfl, h.symm⟩
    | some v => left; exact ⟨v, rfl, h.symm⟩

/-- `joinFields` at the character level is `joinData` of the fields'
character lists. -/
theorem joinFields_data : ∀ l : List String,
    (joinFields l).data = joinData (l.map String.data)
  | [] => rfl
  | [s] => rfl
  | s :: s' :: rest => by
    show (s ++ "|" ++ joinFields (s' :: rest)).data = _
    rw [String.data_append, String.data_append, joinFields_data (s' :: rest)]
    simp [joinData]

/-- Splitting at the first separator occurrence is unambiguous when
neither prefix contains the separator. -/
theorem pipe_split : ∀ (x y u v : List Char), '|' ∉ x → '|' ∉ y →
    x ++ '|' :: u = y ++ '|' :: v → x = y ∧ u = v := by
  intro x
  induction x with
  | nil =>
    intro y u v _ hy h
    cases y with
    | nil => simpa using h
    | cons c y' =>
      exfalso
      simp at h
      exact hy (h.1 ▸ List.mem_cons_self c y')
  | cons c x' ih =>
    intro y u v hx hy h
    cases y with
    | nil =>
      exfalso
      simp at h
      exact hx (h.1 ▸ List.mem_cons_self c x')
    | cons c' y' =>
      simp at h
      obtain ⟨hc, ht⟩ := h
      have hx' : '|' ∉ x' := fun hm => hx (List.mem_cons_of_mem c hm)
      have hy' : '|' ∉ y' := fun hm => hy (List.mem_cons_of_mem c' hm)
      obtain ⟨he, hu⟩ := ih y' u v hx' hy' ht
      exact ⟨by rw [hc, he], hu⟩

/-- `joinData` is injective on non-empty lists of separator-free
fields. -/
theorem joinData_inj : ∀ l1 l2 : List (List Char),
    (∀ s ∈ l1, '|' ∉ s) → (∀ s ∈ l2, '|' ∉ s) → l1 ≠ [] → l2 ≠ [] →
    joinData l1 = joinData l2 → l1 = l2 := by
  intro l1
  induction l1 with
  | nil => intro l2 _ _ hn; exact absurd rfl hn
  | cons a t1 ih =>
    intro l2 h1 h2 _ hn2 heq
    cases l2 with
    | nil => exact absurd rfl hn2
    | cons b t2 =>
      cases t1 with
      | nil =>
        cases t2 with
        | nil =>
          simp only [joinData] at heq
          rw [heq]
        | cons b2 r2 =>
          exfalso
          simp only [joinData] at heq
          apply h1 a (List.mem_cons_self a [])
          rw [heq]
          exact List.mem_append_right b (List.mem_cons_self '|' _)
      | cons a2 r1 =>
        cases t2 with
        | nil =>
          exfalso
          simp only [joinData] at heq
          apply h2 b (List.mem_cons_self b [])
          rw [← heq]
          exact List.mem_append_right a (List.mem_cons_self '|' _)
        | cons b2 r2 =>
          simp only [joinData] at heq
          have ha : '|' ∉ a := h1 a (List.mem_cons_self a _)
          have hb : '|' ∉ b := h2 b (List.mem_cons_self b _)
          obtain ⟨hab, htail⟩ := pipe_split a b _ _ ha hb heq
          have h1' : ∀ s ∈ a2 :: r1, '|' ∉ s :=
            fun s hs => h1 s (List.mem_cons_of_mem a hs)
          have h2' : ∀ s ∈ b2 :: r2, '|' ∉ s :=
            fun s hs => h2 s (List.mem_cons_of_mem b hs)
          have := ih (b2 :: r2) h1' h2' (by simp) (by simp) htail
          rw [hab, this]

/-- A successful `batchIssueAux` run starting at call index `i` issues one
credential per entry, in order, entry `j` with the `(i+j)`-th fresh
supply. -/
theorem batchIssueAux_ok_spec (env : JsEnv) (supply : ℕ → KeyPair × ℕ)
    (sk : String) :
    ∀ (l : List DiplomaData) (i : ℕ) (cs : List Credential),
      batchIssueAux env supply sk i l = .ok cs →
      cs.length = l.length ∧
      ∀ j (hj : j < l.length) (hj' : j < cs.length),
        issueCredential env (supply (i + j)).1 (supply (i + j)).2
          (l.get ⟨j, hj⟩) sk = .ok (cs.get ⟨j, hj'⟩) := by
  intro l
  induction l with
  | nil =>
    intro i cs h
    simp [batchIssueAux] at h
    subst h
    simp
  | cons d rest ih =>
    intro i cs h
    simp only [batchIssueAux] at h
    cases hd : issueCredential env (supply i).1 (supply i).2 d sk with
    | error e => rw [hd] at h; exact absurd h (by simp)
    | ok c =>
      rw [hd] at h
      cases hr : batchIssueAux env supply sk (i + 1) rest with
      | error e => rw [hr] at h; exact absurd h (by simp)
      | ok cs' =>
        rw [hr] at h
        simp at h
        subst h
        obtain ⟨hlen, hget⟩ := ih (i + 1) cs' hr
        refine ⟨by simp [hlen], ?_⟩
        intro j hj hj'
        cases j with
        | zero => simpa using hd
        | succ j' =>
          have hj2 : j' < rest.length := by simpa using hj
          have hj2' : j' < cs'.length := by simpa using hj'
          have := hget j' hj2 hj2'
          simpa [Nat.add_comm, Nat.add_assoc, Nat.add_left_comm] using this

/-- If every entry before `j` issues successfully and entry `j` fails,
`batchIssueAux` propagates exactly that failure. -/
theorem batchIssueAux_error_spec (env : JsEnv) (supply : ℕ → KeyPair × ℕ)
    (sk : String) :
    ∀ (l : List DiplomaData) (i : ℕ) (j : ℕ) (hj : j < l.length) (e : String),
      (∀ k (hk : k < j), ∃ c, issueCredential env (supply (i + k)).1
        (supply (i + k)).2 (l.get ⟨k, Nat.lt_trans hk hj⟩) sk = .ok c) →
      issueCredential env (supply (i + j)).1 (supply (i + j)).2
        (l.get ⟨j, hj⟩) sk = .error e →
      batchIssueAux env supply sk i l = .error e := by
  intro l
  induction l with
  | nil => intro i j hj; simp at hj
  | cons d rest ih =>
    intro i j hj e hpre hfail
    cases j with
    | zero =>
      simp at hfail
      simp [batchIssueAux, hfail]
    | succ j' =>
      obtain ⟨c, hc⟩ := hpre 0 (Nat.succ_pos j')
      simp at hc
      have hj2 : j' < rest.length := by simpa using hj
      have hrec := ih (i + 1) j' hj2 e ?_ ?_
      · simp [batchIssueAux, hc, hrec]
      · intro k hk
        obtain ⟨c', hc'⟩ := hpre (k + 1) (Nat.succ_lt_succ hk)
        exact ⟨c', by simpa [Nat.add_comm, Nat.add_assoc, Nat.add_left_comm] using hc'⟩
      · simpa [Nat.add_comm, Nat.add_assoc, Nat.add_left_comm] using hfail

/-- C1: the claim says `issue(d, sk)` packages the caller-supplied issuer
public key (never a freshly generated one) and that the credential's
signature then verifies.  The code instead stores the public half of the
fresh `generateKeyPair()` result.  Evaluated at a concrete key pair that
matches under the toy scheme: the issued credential records the fresh
`"freshPk"` rather than the caller's `"issuerKey"`, the signature does
verify under the caller's key, yet `verifyCredential` against the
packaged `issuerPublicKey` returns `false`. -/
theorem issueCredential_regenerated_key_bug :
    issueCredential toyEnv sampleFreshKeys 5 sampleDiploma "issuerKey" =
      .ok regeneratedKeyCredential
    ∧ regeneratedKeyCredential.issuerPublicKey = sampleFreshKeys.publicKey
    ∧ regeneratedKeyCredential.issuerPublicKey ≠ "issuerKey"
    ∧ toyEnv.verify (toyEnv.stringifyHashed regeneratedKeyCredential.hashedData)
        regeneratedKeyCredential.signature "issuerKey" = true
    ∧ verifyCredential toyEnv regeneratedKeyCredential
        regeneratedKeyCredential.issuerPublicKey = false := by
  refine ⟨rfl, rfl, ?_, rfl, rfl⟩
  decide

/-- C2: `generateProof` fails with the input-mismatch error whenever the
commitments recomputed from the private inputs differ field-by-field from
the credential's stored commitments, where the gpa field matches only if
both sides are present-and-equal or both absent; in particular omitting
the gpa while the credential recorded one fails; no proof is produced.
Stated for any environment whose hash output is never the empty string
and any credential whose stored gpa commitment is not a present empty
string (hash outputs never are). -/
theorem generateProof_mismatch_fails (env : JsEnv) (request : ProofRequest)
    (now : ℕ) (hne : ∀ s, env.hash s ≠ "")
    (hcred : request.credential.hashedData.gpaHash ≠ some "") :
    ((let rec' := recomputeHashedInputs env request.privateInputs
      rec'.degreeHash ≠ request.credential.hashedData.degreeHash ∨
      rec'.schoolHash ≠ request.credential.hashedData.schoolHash ∨
      rec'.dateHash ≠ request.credential.hashedData.dateHash ∨
      rec'.studentIdHash ≠ request.credential.hashedData.studentIdHash ∨
      ¬ ((∃ v, rec'.gpaHash = some v ∧
            request.credential.hashedData.gpaHash = some v) ∨
         (rec'.gpaHash = none ∧ request.credential.hashedData.gpaHash = none))) →
      generateProof env request now =
        .error "Private inputs do not match the credential data") ∧
    (request.privateInputs.gpa = none →
      request.credential.hashedData.gpaHash ≠ none →
      generateProof env request now =
        .error "Private inputs do not match the credential data") := by
  have ha : (recomputeHashedInputs env request.privateInputs).gpaHash ≠ some "" := by
    simp only [recomputeHashedInputs, gpaCommitment]
    cases hgpa : request.privateInputs.gpa with
    | none => simp
    | some g =>
      by_cases hz : g = 0
      · simp [hz]
      · simp [hz]
        exact hne _
  have key : ∀ (hfalse : verifyHashedData
      (recomputeHashedInputs env request.privateInputs)
      request.credential.hashedData = false),
      generateProof env request now =
        .error "Private inputs do not match the credential data" := by
    intro hfalse
    simp [generateProof, hfalse]
  constructor
  · intro hmismatch
    apply key
    cases hv : verifyHashedData (recomputeHashedInputs env request.privateInputs)
        request.credential.hashedData with
    | false => rfl
    | true =>
      exfalso
      rw [verifyHashedData_true_iff _ _ ha hcred] at hv
      obtain ⟨h1, h2, h3, h4, h5⟩ := hv
      simp only at hmismatch
      rcases hmismatch with h | h | h | h | h
      · exact h h1
      · exact h h2
      · exact h h3
      · exact h h4
      · exact h ((gpaMatch_iff _ _).mpr h5)
  · intro hnone hsome
    apply key
    cases hv : verifyHashedData (recomputeHashedInputs env request.privateInputs)
        request.credential.hashedData with
    | false => rfl
    | true =>
      exfalso
      rw [verifyHashedData_true_iff _ _ ha hcred] at hv
      obtain ⟨-, -, -, -, h5⟩ := hv
      apply hsome
      rw [← h5]
      simp [recomputeHashedInputs, gpaCommitment, hnone]

/-- Witness for C2: the spec's concrete scenario B under `toyEnv` — a
credential that committed to a gpa while proof generation omits it —
fails with the input-mismatch error. -/
theorem generateProof_mismatch_fails_witness :
    generateProof toyEnv gpaOmittedRequest 0 =
      .error "Private inputs do not match the credential data" :=
  (generateProof_mismatch_fails toyEnv gpaOmittedRequest 0
    toyEnv_hash_ne_empty (by decide)).2 rfl (by decide)

/-- C3: when the recomputed commitments match, `generateProof` succeeds
and the proof's public-input list is exactly
`[issuerPublicKey, timestamp-as-text, "degree_verified"]`; the list is
moreover independent of the private inputs (nothing in it is derived from
them). -/
theorem generateProof_match_public_inputs (env : JsEnv)
    (request : ProofRequest) (now : ℕ)
    (hmatch : verifyHashedData (recomputeHashedInputs env request.privateInputs)
      request.credential.hashedData = true) :
    generateProof env request now = .ok (generateMockProof env request now) ∧
    (generateMockProof env request now).publicInputs =
      [request.credential.issuerPublicKey,
       toString request.credential.timestamp, "degree_verified"] ∧
    (∀ otherInputs : DiplomaData,
      (generateMockProof env ⟨request.credential, otherInputs⟩ now).publicInputs =
        (generateMockProof env request now).publicInputs) := by
  refine ⟨?_, rfl, fun _ => rfl⟩
  simp [generateProof, hmatch]

/-- Witness for C3: under `toyEnv`, matching private inputs yield a proof
whose public inputs are the issuer key, the rendered timestamp and the
fixed tag. -/
theorem generateProof_match_public_inputs_witness :
    generateProof toyEnv matchingRequest 7 =
      .ok (generateMockProof toyEnv matchingRequest 7) ∧
    (generateMockProof toyEnv matchingRequest 7).publicInputs =
      ["PKPKPK", "123", "degree_verified"] :=
  ⟨(generateProof_match_public_inputs toyEnv matchingRequest 7 (by decide)).1,
   (generateProof_match_public_inputs toyEnv matchingRequest 7 (by decide)).2.1⟩

/-- C4: `verifyZKProof` returns `isValid = true` (with the success
message) exactly when all four checks pass — structural format, issuer
trust, public-input shape and the simulated cryptographic check — and for
any request whose issuer key is not on a configured non-empty allow-list
the result is `isValid = false`, with the untrusted-issuer message
whenever the proof is structurally well-formed. -/
theorem verifyZKProof_checks_and_trust (env : JsEnv)
    (trustedIssuers : List String) (request : VerificationRequest) :
    ((verifyZKProof env trustedIssuers request).isValid = true ↔
      (validateProofStructure request = true ∧
       validateIssuerKey trustedIssuers request.issuerPublicKey = true ∧
       validatePublicInputs request.publicInputs = true ∧
       performCryptographicVerification env request = true)) ∧
    ((verifyZKProof env trustedIssuers request).isValid = true →
      (verifyZKProof env trustedIssuers request).message =
        "Proof verified successfully") ∧
    (trustedIssuers ≠ [] → request.issuerPublicKey ∉ trustedIssuers →
      (verifyZKProof env trustedIssuers request).isValid = false ∧
      (validateProofStructure request = true →
        (verifyZKProof env trustedIssuers request).message =
          "Invalid or untrusted issuer")) := by
  have hmain : ∀ h1 : validateProofStructure request = true,
      ∀ h2 : validateIssuerKey trustedIssuers request.issuerPublicKey = true,
      ∀ h3 : validatePublicInputs request.publicInputs = true,
      ∀ h4 : performCryptographicVerification env request = true,
      verifyZKProof env trustedIssuers request =
        { isValid := true, message := "Proof verified successfully" } := by
    intro h1 h2 h3 h4
    simp [verifyZKProof, h1, h2, h3, h4]
  refine ⟨?_, ?_, ?_⟩
  · constructor
    · intro h
      cases h1 : validateProofStructure request <;>
        cases h2 : validateIssuerKey trustedIssuers request.issuerPublicKey <;>
        cases h3 : validatePublicInputs request.publicInputs <;>
        cases h4 : performCryptographicVerification env request <;>
        simp_all [verifyZKProof]
    · rintro ⟨h1, h2, h3, h4⟩
      rw [hmain h1 h2 h3 h4]
  · intro h
    cases h1 : validateProofStructure request <;>
      cases h2 : validateIssuerKey trustedIssuers request.issuerPublicKey <;>
      cases h3 : validatePublicInputs request.publicInputs <;>
      cases h4 : performCryptographicVerification env request <;>
      simp [verifyZKProof, h1, h2, h3, h4] at h ⊢
  · intro hne hmem
    have hkey : validateIssuerKey trustedIssuers request.issuerPublicKey = false := by
      unfold validateIssuerKey
      by_cases hlen : request.issuerPublicKey.length == 0
      · simp [hlen]
      · simp only [hlen, Bool.false_eq_true, if_false]
        have hpos : trustedIssuers.length > 0 := List.length_pos.mpr hne
        rw [if_pos hpos]
        simpa using hmem
    constructor
    · cases h1 : validateProofStructure request <;>
        simp [verifyZKProof, h1, hkey]
    · intro h1
      simp [verifyZKProof, h1, hkey]

/-- Witness for C4: a structurally valid request from `"intruderKey"`
against the allow-list `["trustedKey"]` is rejected with the
untrusted-issuer message. -/
theorem verifyZKProof_checks_and_trust_witness :
    (verifyZKProof toyEnv ["trustedKey"] untrustedRequest).isValid = false ∧
    (verifyZKProof toyEnv ["trustedKey"] untrustedRequest).message =
      "Invalid or untrusted issuer" := by
  have h := (verifyZKProof_checks_and_trust toyEnv ["trustedKey"]
    untrustedRequest).2.2 (by decide) (by decide)
  exact ⟨h.1, h.2 (by decide)⟩

/-- C5 counterexample: the claim says `issue` fails with `InvalidInput`
when a required field is empty or the gpa is outside [0,4].
`issueCredential` performs no validation: on a diploma with an empty
degree and gpa 5 it returns a complete credential instead of failing. -/
theorem issueCredential_no_validation_counterexample :
    issueCredential toyEnv sampleFreshKeys 0 invalidDiploma "issuerKey" =
      .ok { hashedData :=
              { degreeHash := "#", schoolHash := "#State U",
                dateHash := "#2020-01-01", studentIdHash := "#42",
                gpaHash := some "#5/1" }
            signature := "#,#State U,#2020-01-01,#42,#5/1:issuerKey"
            issuerPublicKey := "freshPk"
            timestamp := 0 }
    ∧ invalidDiploma.degree = "" ∧ invalidDiploma.gpa = some 5 :=
  ⟨rfl, rfl, rfl⟩

/-- C5 as amended: the core `issueCredential` never validates its input —
whenever the signing primitive succeeds it returns a complete credential,
empty fields and out-of-range gpa included; the emptiness check on the
four required fields lives only in the issuance endpoint, which rejects
such requests with `'Missing required diploma data fields'` before
issuing, and no gpa range check exists anywhere. -/
theorem issuance_validation_only_at_endpoint (env : JsEnv)
    (freshKeys : KeyPair) (now : ℕ) (d : DiplomaData) (sk sig : String)
    (hsign : env.sign (env.stringifyHashed (issueHashedData env d)) sk =
      some sig) :
    issueCredential env freshKeys now d sk =
      .ok { hashedData := issueHashedData env d, signature := sig,
            issuerPublicKey := freshKeys.publicKey, timestamp := now }
    ∧ ((d.degree = "" ∨ d.school = "" ∨ d.graduationDate = "" ∨
        d.studentId = "") →
        issueCredentialAction env freshKeys now d sk =
          .badRequest "Missing required diploma data fields")
    ∧ (d.degree ≠ "" → d.school ≠ "" → d.graduationDate ≠ "" →
        d.studentId ≠ "" →
        issueCredentialAction env freshKeys now d sk =
          .issued { hashedData := issueHashedData env d, signature := sig,
                    issuerPublicKey := freshKeys.publicKey,
                    timestamp := now }) := by
  have hissue : issueCredential env freshKeys now d sk =
      .ok { hashedData := issueHashedData env d, signature := sig,
            issuerPublicKey := freshKeys.publicKey, timestamp := now } := by
    simp [issueCredential, hsign]
  refine ⟨hissue, ?_, ?_⟩
  · intro h
    have hb : (d.degree == "" || d.school == "" ||
        d.graduationDate == "" || d.studentId == "") = true := by
      rcases h with h | h | h | h <;> simp [h]
    simp [issueCredentialAction, hb]
  · intro h1 h2 h3 h4
    have hb : (d.degree == "" || d.school == "" ||
        d.graduationDate == "" || d.studentId == "") = false := by
      simp [h1, h2, h3, h4]
    simp [issueCredentialAction, hb, hissue]

/-- Witness for the amended C5: under `toyEnv` the endpoint issues the
expected credential for valid sample data. -/
theorem issuance_validation_only_at_endpoint_witness :
    issueCredentialAction toyEnv sampleFreshKeys 5 sampleDiploma "issuerKey" =
      .issued regeneratedKeyCredential := by
  have h := issuance_validation_only_at_endpoint toyEnv sampleFreshKeys 5
    sampleDiploma "issuerKey"
    "#B.Sc. CS,#MIT,#2023-05-15,#123456789,#3/1:issuerKey" rfl
  exact h.2.2 (by decide) (by decide) (by decide) (by decide)

/-- C6: `batchIssueCredentials` issues the entries one by one: a
successful batch returns exactly one credential per input entry, in input
order (entry `j` issued with the `j`-th fresh key pair and timestamp),
and if every entry before `j` succeeds while entry `j` fails, the whole
batch fails with exactly that first error. -/
theorem batchIssueCredentials_order_and_first_failure (env : JsEnv)
    (supply : ℕ → KeyPair × ℕ) (l : List DiplomaData) (sk : String) :
    (∀ cs, batchIssueCredentials env supply l sk = .ok cs →
      cs.length = l.length ∧
      ∀ j (hj : j < l.length) (hj' : j < cs.length),
        issueCredential env (supply j).1 (supply j).2 (l.get ⟨j, hj⟩) sk =
          .ok (cs.get ⟨j, hj'⟩)) ∧
    (∀ j (hj : j < l.length) e,
      (∀ k (hk : k < j), ∃ c, issueCredential env (supply k).1 (supply k).2
        (l.get ⟨k, Nat.lt_trans hk hj⟩) sk = .ok c) →
      issueCredential env (supply j).1 (supply j).2 (l.get ⟨j, hj⟩) sk =
        .error e →
      batchIssueCredentials env supply l sk = .error e) := by
  constructor
  · intro cs h
    have := batchIssueAux_ok_spec env supply sk l 0 cs h
    simpa using this
  · intro j hj e hpre hfail
    have := batchIssueAux_error_spec env supply sk l 0 j hj e ?_ ?_
    · simpa [batchIssueCredentials] using this
    · intro k hk
      simpa using hpre k hk
    · simpa using hfail

/-- Witness for C6: a one-element batch under `toyEnv` issues exactly the
expected first credential. -/
theorem batchIssueCredentials_order_witness :
    issueCredential toyEnv sampleFreshKeys 0 sampleDiploma "issuerKey" =
      .ok batchCredential := by
  have h := (batchIssueCredentials_order_and_first_failure toyEnv
    (fun i => (sampleFreshKeys, i)) [sampleDiploma] "issuerKey").1
    [batchCredential] rfl
  exact h.2 0 (by decide) (by decide)

/-- C7 counterexample: the claim says import validates all four top-level
fields and all four required hash fields.  `importCredential` accepts an
object whose `timestamp` and all four hash fields are missing. -/
theorem importCredential_missing_fields_accepted :
    importCredential missingFieldsRaw = .ok missingFieldsRaw ∧
    missingFieldsRaw.timestamp = none ∧
    (missingFieldsRaw.hashedData.getD default).degreeHash = none ∧
    (missingFieldsRaw.hashedData.getD default).schoolHash = none ∧
    (missingFieldsRaw.hashedData.getD default).dateHash = none ∧
    (missingFieldsRaw.hashedData.getD default).studentIdHash = none :=
  ⟨rfl, rfl, rfl, rfl, rfl, rfl⟩

/-- C7 as amended: `importCredential` validates only the truthiness of
the three fields `hashedData`, `signature` and `issuerPublicKey` —
`timestamp` and the individual hash fields are never examined — and fails
with the descriptive format error exactly when one of those three is
missing or empty; the full four-top-level-field and four-hash-field
validation is performed only by the uploader's `validateCredential`. -/
theorem import_checks_three_fields_uploader_checks_all (r : RawCredential) :
    (r.hashedData.isSome = true → jsFalsyStr r.signature = false →
      jsFalsyStr r.issuerPublicKey = false → importCredential r = .ok r) ∧
    ((r.hashedData.isNone = true ∨ jsFalsyStr r.signature = true ∨
        jsFalsyStr r.issuerPublicKey = true) →
      importCredential r = .error "Failed to import credential: Invalid format") ∧
    (validateCredential r = .ok () ↔
      (∃ h, r.hashedData = some h ∧
        h.degreeHash.isSome = true ∧ h.schoolHash.isSome = true ∧
        h.dateHash.isSome = true ∧ h.studentIdHash.isSome = true) ∧
      (∃ s, r.signature = some s ∧ s ≠ "") ∧
      (∃ p, r.issuerPublicKey = some p ∧ p ≠ "") ∧
      (∃ t, r.timestamp = some t ∧ 0 < t)) := by
  obtain ⟨hd, sig, pk, ts⟩ := r
  refine ⟨?_, ?_, ?_⟩
  · intro hhd hsig hpk
    simp only [importCredential]
    rw [if_neg]
    simp only [Bool.or_eq_true, not_or]
    refine ⟨⟨?_, ?_⟩, ?_⟩
    · simp only [Option.isNone_iff_eq_none]
      intro h
      rw [h] at hhd
      simp at hhd
    · simp [hsig]
    · simp [hpk]
  · intro h
    simp only [importCredential]
    rw [if_pos]
    rcases h with h | h | h
    · simp only [Option.isNone_iff_eq_none] at h
      simp [h]
    · simp [h]
    · simp [h]
  · cases hd with
    | none => simp [validateCredential]
    | some h =>
      cases sig with
      | none => simp [validateCredential]
      | some s =>
        cases pk with
        | none => simp [validateCredential]
        | some p =>
          cases ts with
          | none => simp [validateCredential]
          | some t =>
            obtain ⟨d1, d2, d3, d4, d5⟩ := h
            cases d1 with
            | none => simp [validateCredential]
            | some v1 =>
              cases d2 with
              | none => simp [validateCredential]
              | some v2 =>
                cases d3 with
                | none => simp [validateCredential]
                | some v3 =>
                  cases d4 with
                  | none => simp [validateCredential]
                  | some v4 =>
                    by_cases hs : s = ""
                    · simp [validateCredential, jsFalsyStr, hs]
                    · by_cases hp : p = ""
                      · simp [validateCredential, jsFalsyStr, hs, hp]
                      · by_cases ht : t = 0
                        · simp [validateCredential, jsFalsyStr, hs, hp, ht]
                        · simp [validateCredential, jsFalsyStr, hs, hp, ht,
                            Nat.pos_of_ne_zero ht]

/-- Witness for the amended C7: the uploader's `validateCredential`
accepts a fully populated exported credential. -/
theorem import_checks_three_fields_uploader_checks_all_witness :
    validateCredential (exportCredential roundTripCredential) = .ok () :=
  (import_checks_three_fields_uploader_checks_all
    (exportCredential roundTripCredential)).2.2.mpr
    ⟨⟨_, rfl, rfl, rfl, rfl, rfl⟩, ⟨"sig", rfl, by decide⟩,
     ⟨"pk", rfl, by decide⟩, ⟨77, rfl, by decide⟩⟩

/-- C8: exporting a valid credential (all fields present, signature and
issuer key non-empty as every real credential has) and importing it back
succeeds and yields the same object; reading the imported tree back at
the credential type recovers exactly the original credential. -/
theorem export_import_roundtrip (c : Credential) (hsig : c.signature ≠ "")
    (hpk : c.issuerPublicKey ≠ "") :
    importCredential (exportCredential c) = .ok (exportCredential c) ∧
    readRawCredential (exportCredential c) = some c := by
  constructor
  · unfold importCredential
    rw [if_neg]
    simp [exportCredential, jsFalsyStr, hsig, hpk]
  · rfl

/-- Witness for C8: the round-trip on a concrete credential. -/
theorem export_import_roundtrip_witness :
    importCredential (exportCredential roundTripCredential) =
      .ok (exportCredential roundTripCredential) ∧
    readRawCredential (exportCredential roundTripCredential) =
      some roundTripCredential :=
  export_import_roundtrip roundTripCredential (by decide) (by decide)

/-- C9 counterexample: the claim says the joined pre-images of any two
distinct field lists are distinct.  The separator `'|'` may occur inside
a field: `["a", "b"]` and `["a|b"]` are distinct lists with identical
joined pre-image, hence identical `hashMultipleFields` digest. -/
theorem joinFields_pipe_collision :
    joinFields ["a", "b"] = joinFields ["a|b"] ∧
    (["a", "b"] : List String) ≠ ["a|b"] ∧
    hashMultipleFields toyEnv ["a", "b"] = hashMultipleFields toyEnv ["a|b"] :=
  ⟨rfl, by decide, rfl⟩

/-- C9 as amended: the `'|'` join of `hashMultipleFields` is unambiguous
for non-empty lists of fields that do not contain the separator
character — in particular the spec's `"ab" + "c"` versus `"a" + "bc"`
style of concatenation ambiguity is impossible — but distinct lists whose
fields contain `'|'` (or the empty list versus the single-empty-field
list) can share a pre-image. -/
theorem joinFields_injective_on_pipe_free_fields (l1 l2 : List String)
    (h1 : ∀ s ∈ l1, '|' ∉ s.data) (h2 : ∀ s ∈ l2, '|' ∉ s.data)
    (hn1 : l1 ≠ []) (hn2 : l2 ≠ []) (heq : joinFields l1 = joinFields l2) :
    l1 = l2 := by
  have hdata : joinData (l1.map String.data) = joinData (l2.map String.data) := by
    rw [← joinFields_data, ← joinFields_data, heq]
  have h1' : ∀ s ∈ l1.map String.data, '|' ∉ s := by
    intro s hs
    obtain ⟨t, ht, rfl⟩ := List.mem_map.mp hs
    exact h1 t ht
  have h2' : ∀ s ∈ l2.map String.data, '|' ∉ s := by
    intro s hs
    obtain ⟨t, ht, rfl⟩ := List.mem_map.mp hs
    exact h2 t ht
  have hmap := joinData_inj (l1.map String.data) (l2.map String.data) h1' h2'
    (by simpa using hn1) (by simpa using hn2) hdata
  have hinj : Function.Injective String.data := fun a b h => String.ext h
  exact List.map_injective_iff.mpr hinj hmap

/-- Witness for the amended C9: the spec's example fields are
separator-free, their join is well-defined and the theorem applies to
them. -/
theorem joinFields_injective_on_pipe_free_fields_witness :
    joinFields ["ab", "c"] = joinFields ["ab", "c"] ∧
    (["ab", "c"] : List String) = ["ab", "c"] :=
  ⟨rfl, joinFields_injective_on_pipe_free_fields ["ab", "c"] ["ab", "c"]
    (by decide) (by decide) (by decide) (by decide) rfl⟩

/-- C10: a gpa equal to 0 — admitted by the spec's [0,4] range — is falsy
in JS, so both the issuer-side and the proof-side commitment computations
treat it as absent: the commitment sets for gpa 0 and for an omitted gpa
are identical with no gpa commitment, the issued credentials coincide,
and the mock proof's public face (public inputs, verification key) cannot
distinguish the two. -/
theorem gpa_zero_commits_as_absent (env : JsEnv) (freshKeys : KeyPair)
    (now : ℕ) (d : DiplomaData) (sk : String) (h : d.gpa = some 0) :
    issueHashedData env d = issueHashedData env { d with gpa := none }
    ∧ (issueHashedData env d).gpaHash = none
    ∧ recomputeHashedInputs env d = recomputeHashedInputs env { d with gpa := none }
    ∧ (recomputeHashedInputs env d).gpaHash = none
    ∧ issueCredential env freshKeys now d sk =
        issueCredential env freshKeys now { d with gpa := none } sk
    ∧ (∀ c n, (generateMockProof env ⟨c, d⟩ n).publicInputs =
        (generateMockProof env ⟨c, { d with gpa := none }⟩ n).publicInputs ∧
        (generateMockProof env ⟨c, d⟩ n).verificationKey =
          (generateMockProof env ⟨c, { d with gpa := none }⟩ n).verificationKey) := by
  have hg : gpaCommitment env d.gpa = gpaCommitment env none := by
    simp [gpaCommitment, h]
  have hh : issueHashedData env d = issueHashedData env { d with gpa := none } := by
    simp [issueHashedData, hg]
  have hr : recomputeHashedInputs env d =
      recomputeHashedInputs env { d with gpa := none } := by
    simp [recomputeHashedInputs, hg]
  refine ⟨hh, ?_, hr, ?_, ?_, ?_⟩
  · simp [issueHashedData, gpaCommitment, h]
  · simp [recomputeHashedInputs, gpaCommitment, h]
  · simp [issueCredential, hh]
  · intro c n
    exact ⟨rfl, rfl⟩

/-- Witness for C10: under `toyEnv`, issuing with gpa 0 and issuing with
the gpa omitted produce the same credential. -/
theorem gpa_zero_commits_as_absent_witness :
    issueCredential toyEnv sampleFreshKeys 3 zeroGpaDiploma "issuerKey" =
      issueCredential toyEnv sampleFreshKeys 3
        { sampleDiploma with gpa := none } "issuerKey" :=
  (gpa_zero_commits_as_absent toyEnv sampleFreshKeys 3 zeroGpaDiploma
    "issuerKey" rfl).2.2.2.2.1

end DegreeVerification
